import Mathlib

/-!
Verification development for the go-archiver core: a shallow embedding of the
qx payload codec (`qx/payloads.go`), the transaction validator and indexing
maps (`validator/tx/validator.go`), the store bookkeeping and the reverse
asset-transaction reader (store package), the asset-transaction classifier
(`asset_transactions` package), and the per-tick validation pipeline
(`validator` package).

Modelling conventions:
* Bytes are `Nat` (values < 256 where produced by the code); byte strings are
  `List Nat`.  Go strings are byte strings, so identities, asset names and
  transaction ids are `List Nat` as well.
* `types.Identity.FromPubKey` (external library) is an injective, total
  encoding of a 32-byte public key into its 60-character text form; we model
  identity text by the public-key bytes themselves.  Likewise a transaction id
  is modelled by the transaction digest it encodes.
* The K12 hash, the FourQ signature verifier and the external vote/tick
  validators are CPU-only black boxes for the core; they are passed in as
  explicit function arguments ("oracles") so that theorems quantify over them.
* Go `map` values keyed by strings are modelled as association lists with
  first-insertion order; theorems only ever state lookups, which are
  independent of Go's randomized iteration order.
-/

namespace GoArchiver

/-- Association-list lookup, modelling Go `m[k]` (comma-ok form). -/
def alistLookup {α β : Type} [DecidableEq α] : List (α × β) → α → Option β
  | [], _ => none
  | (k, v) :: rest, key => if k = key then some v else alistLookup rest key

/-- Association-list insert/replace, modelling Go `m[k] = v`. -/
def alistSet {α β : Type} [DecidableEq α] : List (α × β) → α → β → List (α × β)
  | [], key, val => [(key, val)]
  | (k, v) :: rest, key, val =>
      if k = key then (k, val) :: rest else (k, v) :: alistSet rest key val

/-- Go idiom `if _, ok := m[k]; !ok { m[k] = make(...) }`: ensure a key is
present with an empty list value. -/
def mapEnsure {α β : Type} [DecidableEq α] (m : List (α × List β)) (key : α) :
    List (α × List β) :=
  if (alistLookup m key).isSome then m else alistSet m key []

/-- Go idiom `m[k] = append(m[k], x)`. -/
def mapAppend {α β : Type} [DecidableEq α] (m : List (α × List β)) (key : α) (x : β) :
    List (α × List β) :=
  alistSet m key ((alistLookup m key).getD [] ++ [x])

theorem alistLookup_alistSet {α β : Type} [DecidableEq α]
    (m : List (α × β)) (k : α) (v : β) : alistLookup (alistSet m k v) k = some v := by
  induction m with
  | nil => simp [alistSet, alistLookup]
  | cons hd tl ih =>
      obtain ⟨k0, v0⟩ := hd
      by_cases h : k0 = k
      · subst h; simp [alistSet, alistLookup]
      · simp [alistSet, alistLookup, h, ih]

/-- Little-endian byte encoding of a natural number into `k` bytes;
models `binary.LittleEndian.PutUint64` (with `k = 8`) and `binary.Write`
of fixed-width integers. -/
def natToLEBytes : Nat → Nat → List Nat
  | 0, _ => []
  | k + 1, n => n % 256 :: natToLEBytes k (n / 256)

/-- Little-endian byte decoding; models `binary.LittleEndian.Uint64` and
`binary.Read` of fixed-width unsigned integers. -/
def leBytesToNat : List Nat → Nat
  | [] => 0
  | b :: bs => b + 256 * leBytesToNat bs

theorem natToLEBytes_length (k n : Nat) : (natToLEBytes k n).length = k := by
  induction k generalizing n with
  | zero => rfl
  | succ k ih => simp [natToLEBytes, ih]

theorem leBytesToNat_natToLEBytes (k n : Nat) :
    leBytesToNat (natToLEBytes k n) = n % 256 ^ k := by
  induction k generalizing n with
  | zero => simp [natToLEBytes, leBytesToNat, Nat.mod_one]
  | succ k ih =>
      have hmul : n % (256 * 256 ^ k) = n % 256 + 256 * (n / 256 % 256 ^ k) :=
        Nat.mod_mul
      simp only [natToLEBytes, leBytesToNat, ih, pow_succ]
      rw [show (256 : Nat) ^ k * 256 = 256 * 256 ^ k by ring, hmul]

/-- Go conversion `uint64(x)` applied to a (bounded) `int64` value:
two's-complement reinterpretation. -/
def int64ToUint64 (i : Int) : Nat := (i % (2 ^ 64 : Int)).toNat

/-- Go `int64` read back from an unsigned 64-bit value (the effect of
`binary.Read` into an `int64` field): values `≥ 2^63` are negative. -/
def uint64ToInt64 (u : Nat) : Int :=
  if u < 2 ^ 63 then (u : Int) else (u : Int) - 2 ^ 64

theorem int64ToUint64_lt (i : Int) : int64ToUint64 i < 2 ^ 64 := by
  unfold int64ToUint64
  omega

theorem uint64ToInt64_int64ToUint64 (i : Int)
    (h1 : -(2 ^ 63) ≤ i) (h2 : i < 2 ^ 63) :
    uint64ToInt64 (int64ToUint64 i) = i := by
  unfold uint64ToInt64 int64ToUint64
  split <;> omega

theorem int64ToUint64_of_neg (i : Int) (h1 : -(2 ^ 63) ≤ i) (h2 : i < 0) :
    int64ToUint64 i = (i + 2 ^ 64).toNat := by
  unfold int64ToUint64
  omega

/- ### qx/payloads.go -/

/-- `QxTransferAssetOwnershipAndPossessionInput` (qx/payloads.go): the decoded
input of a Qx asset-ownership transfer.  `issuer` and `newOwnerAndPossessor`
are 32-byte public keys, `assetName` a `uint64`, `numberOfUnits` an `int64`. -/
structure QxTransferAssetOwnershipAndPossessionInput where
  issuer : List Nat
  newOwnerAndPossessor : List Nat
  assetName : Nat
  numberOfUnits : Int
deriving DecidableEq

namespace QxTransferAssetOwnershipAndPossessionInput

/-- `MarshalBinary` (qx/payloads.go): issuer bytes, new-owner bytes, asset
name as 8 little-endian bytes, number of units as 8 little-endian
two's-complement bytes. -/
def marshalBinary (t : QxTransferAssetOwnershipAndPossessionInput) : List Nat :=
  t.issuer ++ t.newOwnerAndPossessor ++ natToLEBytes 8 t.assetName ++
    natToLEBytes 8 (int64ToUint64 t.numberOfUnits)

/-- `UnmarshalBinary` (qx/payloads.go): reads 32 + 32 + 8 + 8 bytes from the
front of `data`; `binary.Read` fails (and the Go method returns an error) when
fewer than 80 bytes are available, and ignores any extra bytes. -/
def unmarshalBinary (data : List Nat) :
    Option QxTransferAssetOwnershipAndPossessionInput :=
  if 80 ≤ data.length then
    some { issuer := data.take 32
           newOwnerAndPossessor := (data.drop 32).take 32
           assetName := leBytesToNat ((data.drop 64).take 8)
           numberOfUnits := uint64ToInt64 (leBytesToNat ((data.drop 72).take 8)) }
  else none

end QxTransferAssetOwnershipAndPossessionInput

/-- `Uint64ToString` (qx/payloads.go) — the byte content of the returned Go
string.  The value's 8 little-endian bytes are passed through
`bytes.Trim(buf, "\x00")`, which removes zero bytes from BOTH ends. -/
def uint64ToString (value : Nat) : List Nat :=
  ((natToLEBytes 8 value).dropWhile (fun b => b == 0)).reverse.dropWhile
      (fun b => b == 0) |>.reverse

/-- Definition following the SPEC wording for the asset-name encoding
(`utf8(assetName)-with-trailing-zeros-stripped`): only TRAILING zero bytes
are removed, leading and interior bytes are preserved.  Stated separately so
it can be compared with `uint64ToString`, which is translated from the code. -/
def specTrailingOnlyAssetName (value : Nat) : List Nat :=
  ((natToLEBytes 8 value).reverse.dropWhile (fun b => b == 0)).reverse

theorem exists_replicate_append_dropWhileZero (l : List Nat) :
    ∃ a, l = List.replicate a 0 ++ l.dropWhile (fun b => b == 0) := by
  induction l with
  | nil => exact ⟨0, rfl⟩
  | cons x xs ih =>
      by_cases hx : x = 0
      · subst hx
        obtain ⟨a, ha⟩ := ih
        refine ⟨a + 1, ?_⟩
        simpa [List.dropWhile, List.replicate_succ] using ha
      · have hb : (x == 0) = false := by simpa using hx
        refine ⟨0, ?_⟩
        simp [List.dropWhile, hb]

theorem head?_dropWhileZero_ne_zero (l : List Nat) :
    (l.dropWhile (fun b => b == 0)).head? ≠ some 0 := by
  induction l with
  | nil => simp [List.dropWhile]
  | cons x xs ih =>
      by_cases hx : x = 0
      · subst hx; simpa [List.dropWhile] using ih
      · have hb : (x == 0) = false := by simpa using hx
        simp [List.dropWhile, hb, hx]

/-- Claim C7 counterexample: for value 256 the little-endian bytes are
`[0, 1, 0, 0, 0, 0, 0, 0]`; stripping only trailing zeros (the spec wording)
keeps the leading zero byte, but the code's `bytes.Trim` removes it. -/
theorem c7_assetName_counterexample :
    uint64ToString 256 = [1] ∧ specTrailingOnlyAssetName 256 = [0, 1] := by
  decide

/-- Claim C7 (amended): for every 64-bit asset-name value the classifier's
asset-name string is the little-endian byte encoding with zero bytes removed
from BOTH ends (interior zero bytes are preserved): the encoding decomposes as
leading zeros ++ name ++ trailing zeros, and the name neither starts nor ends
with a zero byte. -/
theorem c7_assetName_amended (v : Nat) :
    ∃ a b, natToLEBytes 8 v =
        List.replicate a 0 ++ uint64ToString v ++ List.replicate b 0 ∧
      (uint64ToString v).head? ≠ some 0 ∧ (uint64ToString v).getLast? ≠ some 0 := by
  obtain ⟨a, ha⟩ := exists_replicate_append_dropWhileZero (natToLEBytes 8 v)
  set m : List Nat := (natToLEBytes 8 v).dropWhile (fun b => b == 0) with hm
  obtain ⟨b, hb⟩ := exists_replicate_append_dropWhileZero m.reverse
  have huts : uint64ToString v = (m.reverse.dropWhile (fun b => b == 0)).reverse := by
    simp [uint64ToString, hm]
  have hmdecomp : m = uint64ToString v ++ List.replicate b 0 := by
    have := congrArg List.reverse hb
    simpa [huts, List.reverse_append, List.reverse_replicate] using this
  refine ⟨a, b, ?_, ?_, ?_⟩
  · rw [ha, hmdecomp, List.append_assoc]
  · rcases heq : uint64ToString v with _ | ⟨x, xs⟩
    · simp
    · have hne : uint64ToString v ≠ [] := by simp [heq]
      have : (uint64ToString v ++ List.replicate b 0).head? = (uint64ToString v).head? :=
        List.head?_append_of_ne_nil _ hne
      rw [← hmdecomp] at this
      have hm0 : m.head? ≠ some 0 := by
        rw [hm]; exact head?_dropWhileZero_ne_zero _
      rw [this] at hm0
      simpa [heq] using hm0
  · rw [huts, List.getLast?_reverse]
    exact head?_dropWhileZero_ne_zero _

/-- The marshalled Qx transfer input is 80 bytes when the two key fields are
32 bytes each. -/
theorem marshalBinary_length (x : QxTransferAssetOwnershipAndPossessionInput)
    (h1 : x.issuer.length = 32) (h2 : x.newOwnerAndPossessor.length = 32) :
    x.marshalBinary.length = 80 := by
  simp [QxTransferAssetOwnershipAndPossessionInput.marshalBinary, h1, h2,
    natToLEBytes_length]

/-- Claim C8: unmarshalling the bytes produced by marshalling a
`QxTransferAssetOwnershipAndPossessionInput` yields the value back, for every
value whose fields are in the ranges the Go types impose (32-byte arrays, a
`uint64` asset name and an `int64` unit count). -/
theorem c8_qx_input_roundtrip (x : QxTransferAssetOwnershipAndPossessionInput)
    (h1 : x.issuer.length = 32) (h2 : x.newOwnerAndPossessor.length = 32)
    (h3 : x.assetName < 2 ^ 64)
    (h4 : -(2 ^ 63) ≤ x.numberOfUnits) (h5 : x.numberOfUnits < 2 ^ 63) :
    QxTransferAssetOwnershipAndPossessionInput.unmarshalBinary x.marshalBinary =
      some x := by
  have hlen : x.marshalBinary.length = 80 := marshalBinary_length x h1 h2
  have hassoc : x.marshalBinary =
      x.issuer ++ (x.newOwnerAndPossessor ++ (natToLEBytes 8 x.assetName ++
        natToLEBytes 8 (int64ToUint64 x.numberOfUnits))) := by
    simp [QxTransferAssetOwnershipAndPossessionInput.marshalBinary,
      List.append_assoc]
  have htake32 : x.marshalBinary.take 32 = x.issuer := by
    rw [hassoc, ← h1, List.take_left]
  have hdrop32 : x.marshalBinary.drop 32 =
      x.newOwnerAndPossessor ++ (natToLEBytes 8 x.assetName ++
        natToLEBytes 8 (int64ToUint64 x.numberOfUnits)) := by
    rw [hassoc, ← h1, List.drop_left]
  have htake32b : (x.marshalBinary.drop 32).take 32 = x.newOwnerAndPossessor := by
    rw [hdrop32, ← h2, List.take_left]
  have hassoc64 : x.marshalBinary =
      (x.issuer ++ x.newOwnerAndPossessor) ++ (natToLEBytes 8 x.assetName ++
        natToLEBytes 8 (int64ToUint64 x.numberOfUnits)) := by
    simp [QxTransferAssetOwnershipAndPossessionInput.marshalBinary,
      List.append_assoc]
  have hlen64 : (x.issuer ++ x.newOwnerAndPossessor).length = 64 := by
    simp [h1, h2]
  have hdrop64 : x.marshalBinary.drop 64 =
      natToLEBytes 8 x.assetName ++ natToLEBytes 8 (int64ToUint64 x.numberOfUnits) := by
    rw [hassoc64, ← hlen64, List.drop_left]
  have htake8a : (x.marshalBinary.drop 64).take 8 = natToLEBytes 8 x.assetName := by
    have h := List.take_left (natToLEBytes 8 x.assetName)
      (natToLEBytes 8 (int64ToUint64 x.numberOfUnits))
    rw [natToLEBytes_length] at h
    rw [hdrop64]
    exact h
  have hassoc72 : x.marshalBinary =
      ((x.issuer ++ x.newOwnerAndPossessor) ++ natToLEBytes 8 x.assetName) ++
        natToLEBytes 8 (int64ToUint64 x.numberOfUnits) := by
    simp [QxTransferAssetOwnershipAndPossessionInput.marshalBinary,
      List.append_assoc]
  have hlen72 : ((x.issuer ++ x.newOwnerAndPossessor) ++
      natToLEBytes 8 x.assetName).length = 72 := by
    simp [h1, h2, natToLEBytes_length]
  have hdrop72 : x.marshalBinary.drop 72 =
      natToLEBytes 8 (int64ToUint64 x.numberOfUnits) := by
    rw [hassoc72, ← hlen72, List.drop_left]
  have htake8u : (x.marshalBinary.drop 72).take 8 =
      natToLEBytes 8 (int64ToUint64 x.numberOfUnits) := by
    rw [hdrop72]
    exact List.take_of_length_le (by rw [natToLEBytes_length])
  have hname : leBytesToNat (natToLEBytes 8 x.assetName) = x.assetName := by
    rw [leBytesToNat_natToLEBytes]
    exact Nat.mod_eq_of_lt (by norm_num at h3 ⊢; omega)
  have hunits : uint64ToInt64 (leBytesToNat (natToLEBytes 8
      (int64ToUint64 x.numberOfUnits))) = x.numberOfUnits := by
    rw [leBytesToNat_natToLEBytes]
    have hlt := int64ToUint64_lt x.numberOfUnits
    rw [Nat.mod_eq_of_lt (by norm_num at hlt ⊢; omega)]
    exact uint64ToInt64_int64ToUint64 _ h4 h5
  unfold QxTransferAssetOwnershipAndPossessionInput.unmarshalBinary
  rw [if_pos (le_of_eq hlen.symm)]
  rw [htake32, htake32b, htake8a, htake8u, hname, hunits]

/-- Concrete sample input for the C8 witness. -/
def c8Sample : QxTransferAssetOwnershipAndPossessionInput :=
  { issuer := List.replicate 32 5
    newOwnerAndPossessor := List.replicate 32 6
    assetName := 4343363
    numberOfUnits := -5 }

/-- Witness for C8 at a concrete input with a negative unit count. -/
theorem c8_qx_input_roundtrip_witness :
    c8Sample.issuer.length = 32 ∧ c8Sample.newOwnerAndPossessor.length = 32 ∧
      c8Sample.assetName < 2 ^ 64 ∧ -(2 ^ 63) ≤ c8Sample.numberOfUnits ∧
      c8Sample.numberOfUnits < 2 ^ 63 ∧
      QxTransferAssetOwnershipAndPossessionInput.unmarshalBinary
        c8Sample.marshalBinary = some c8Sample :=
  ⟨by decide, by decide, by norm_num [c8Sample], by norm_num [c8Sample],
    by norm_num [c8Sample],
    c8_qx_input_roundtrip c8Sample (by decide) (by decide)
      (by norm_num [c8Sample]) (by norm_num [c8Sample]) (by norm_num [c8Sample])⟩

/- ### Transactions (go-node-connector types.Transaction and protobuff.Transaction) -/

/-- `types.Transaction`: the wire form of a transaction as fetched from the
node.  The K12 digest of its signed marshalled bytes is computed by an
external helper; theorems take that digest function as an argument. -/
structure QTransaction where
  sourcePublicKey : List Nat
  destinationPublicKey : List Nat
  amount : Int
  tick : Nat
  inputType : Nat
  inputSize : Nat
  input : List Nat
  signature : List Nat
deriving DecidableEq

/-- `protobuff.Transaction`: the persisted form.  Identity text fields are
modelled by the public-key bytes they encode, and `txId` by the transaction
digest (see the conventions above). -/
structure PTransaction where
  sourceId : List Nat
  destId : List Nat
  amount : Int
  tickNumber : Nat
  inputType : Nat
  inputSize : Nat
  input : List Nat
  signature : List Nat
  txId : List Nat
deriving DecidableEq

/-- `txToProto` (validator/tx/models.go): converts a wire transaction to its
persisted form; `digestF` stands for the external K12 digest used to build the
transaction id. -/
def txToProto (digestF : QTransaction → List Nat) (tx : QTransaction) : PTransaction :=
  { sourceId := tx.sourcePublicKey
    destId := tx.destinationPublicKey
    amount := tx.amount
    tickNumber := tx.tick
    inputType := tx.inputType
    inputSize := tx.inputSize
    input := tx.input
    signature := tx.signature
    txId := digestF tx }

/-- `removeNonTransferTransactionsAndConvert` (validator/tx/validator.go):
drops transactions with `Amount == 0` and converts the rest. -/
def removeNonTransferTransactionsAndConvert (digestF : QTransaction → List Nat)
    (transactions : List QTransaction) : List PTransaction :=
  transactions.filterMap
    (fun tx => if tx.amount = 0 then none else some (txToProto digestF tx))

/-- `createTransferTransactionsIdentityMap` (validator/tx/validator.go):
groups transfer transactions by identity; every transaction is appended under
its destination and then under its source. -/
def createTransferTransactionsIdentityMap (txs : List PTransaction) :
    List (List Nat × List PTransaction) :=
  txs.foldl
    (fun m tx =>
      let m1 := mapEnsure m tx.destId
      let m2 := mapEnsure m1 tx.sourceId
      let m3 := mapAppend m2 tx.destId tx
      mapAppend m3 tx.sourceId tx)
    []

/- ### qx payload classification used by the indexer -/

/-- `QxTransferAssetPayload` (qx/payloads.go): issuer and destination are
identity texts (modelled by public-key bytes), `assetName` a byte string. -/
structure QxTransferAssetPayload where
  issuer : List Nat
  destId : List Nat
  assetName : List Nat
  amount : Int
deriving DecidableEq

/-- `GetAssetTransfer` (qx/payloads.go).  The external
`types.Identity.FromPubKey` conversion is total for 32-byte inputs, so the Go
error paths cannot fire; the conversion itself is modelled by the identity on
public-key bytes. -/
def getAssetTransfer (inp : QxTransferAssetOwnershipAndPossessionInput) :
    QxTransferAssetPayload :=
  { issuer := inp.issuer
    destId := inp.newOwnerAndPossessor
    assetName := uint64ToString inp.assetName
    amount := inp.numberOfUnits }

/-- `QxTransactionWithTransferAssetPayload` (validator/tx/validator.go). -/
structure QxTransactionWithTransferAssetPayload where
  transaction : QTransaction
  transferPayload : QxTransferAssetPayload
deriving DecidableEq

/-- `removeNonQxAssetTransferTransactionsAndConvert`
(validator/tx/validator.go): keeps every transaction whose `InputType` is 2
and whose input unmarshals as a Qx asset-transfer payload.  Note that the
destination is NOT inspected. -/
def removeNonQxAssetTransferTransactionsAndConvert (transactions : List QTransaction) :
    List QxTransactionWithTransferAssetPayload :=
  transactions.filterMap
    (fun tx =>
      if tx.inputType = 2 then
        match QxTransferAssetOwnershipAndPossessionInput.unmarshalBinary tx.input with
        | some inp => some ⟨tx, getAssetTransfer inp⟩
        | none => none
      else none)

/-- `QxAssetTransfer` (validator/tx/validator.go). -/
structure QxAssetTransfer where
  assetIssuer : List Nat
  assetName : List Nat
  sourceId : List Nat
  destId : List Nat
  amount : Int
  txId : List Nat
  tickNumber : Nat
deriving DecidableEq

/-- `createQxAssetTransfersIdentityMap` (validator/tx/validator.go): builds
one `QxAssetTransfer` record per transaction and appends it under the
payload's destination identity and then under the source identity. -/
def createQxAssetTransfersIdentityMap (digestF : QTransaction → List Nat)
    (txs : List QxTransactionWithTransferAssetPayload) (tickNumber : Nat) :
    List (List Nat × List QxAssetTransfer) :=
  txs.foldl
    (fun m t =>
      let destId := t.transferPayload.destId
      let sourceId := t.transaction.sourcePublicKey
      let m1 := mapEnsure m destId
      let m2 := mapEnsure m1 sourceId
      let r : QxAssetTransfer :=
        { assetIssuer := t.transferPayload.issuer
          assetName := t.transferPayload.assetName
          sourceId := sourceId
          destId := destId
          amount := t.transferPayload.amount
          txId := digestF t.transaction
          tickNumber := tickNumber }
      mapAppend (mapAppend m2 destId r) sourceId r)
    []

/-- `protobuff.QxAssetTransferDB`: the per-asset record persisted in the
index; its `amount` field is an unsigned 64-bit integer. -/
structure QxAssetTransferDB where
  sourceId : List Nat
  destId : List Nat
  amount : Nat
  txId : List Nat
deriving DecidableEq

/-- `createQxAssetTransferAssetIdMap` (validator/tx/validator.go): groups
transfers by asset id (issuer text concatenated with asset name) and converts
each to the DB record, reinterpreting `Amount int64` as `uint64`. -/
def createQxAssetTransferAssetIdMap (transfers : List QxAssetTransfer) :
    List (List Nat × List QxAssetTransferDB) :=
  transfers.foldl
    (fun m t =>
      let assetId := t.assetIssuer ++ t.assetName
      let m1 := mapEnsure m assetId
      mapAppend m1 assetId
        { sourceId := t.sourceId
          destId := t.destId
          amount := int64ToUint64 t.amount
          txId := t.txId })
    []

/-- Claim C9: a positive-amount transaction whose source equals its
destination is appended twice (once for the destination, once for the source)
to that identity's per-tick transfer record; the same duplication happens in
the per-identity asset-transfer grouping when the Qx payload's new owner
equals the source. -/
theorem c9_self_transfer_duplication (digestF : QTransaction → List Nat)
    (tx : QTransaction) (q : QxTransactionWithTransferAssetPayload) (tickNumber : Nat)
    (hamt : 0 < tx.amount)
    (hself : tx.destinationPublicKey = tx.sourcePublicKey)
    (hq : q.transferPayload.destId = q.transaction.sourcePublicKey) :
    alistLookup (createTransferTransactionsIdentityMap
        (removeNonTransferTransactionsAndConvert digestF [tx])) tx.sourcePublicKey
      = some [txToProto digestF tx, txToProto digestF tx] ∧
    alistLookup (createQxAssetTransfersIdentityMap digestF [q] tickNumber)
        q.transaction.sourcePublicKey
      = some [{ assetIssuer := q.transferPayload.issuer
                assetName := q.transferPayload.assetName
                sourceId := q.transaction.sourcePublicKey
                destId := q.transferPayload.destId
                amount := q.transferPayload.amount
                txId := digestF q.transaction
                tickNumber := tickNumber },
              { assetIssuer := q.transferPayload.issuer
                assetName := q.transferPayload.assetName
                sourceId := q.transaction.sourcePublicKey
                destId := q.transferPayload.destId
                amount := q.transferPayload.amount
                txId := digestF q.transaction
                tickNumber := tickNumber }] := by
  have hne : tx.amount ≠ 0 := by omega
  constructor
  · simp [removeNonTransferTransactionsAndConvert, hne,
      createTransferTransactionsIdentityMap, mapEnsure, mapAppend, alistSet,
      alistLookup, txToProto, hself]
  · simp [createQxAssetTransfersIdentityMap, mapEnsure, mapAppend, alistSet,
      alistLookup, hq]

/-- Concrete transaction for the C9 witness: a self-transfer of 100. -/
def c9Tx : QTransaction :=
  { sourcePublicKey := List.replicate 32 2
    destinationPublicKey := List.replicate 32 2
    amount := 100
    tick := 11
    inputType := 0
    inputSize := 0
    input := []
    signature := [] }

/-- Concrete Qx transfer for the C9 witness: the payload's new owner equals
the transaction source. -/
def c9Qx : QxTransactionWithTransferAssetPayload :=
  { transaction := c9Tx
    transferPayload :=
      { issuer := List.replicate 32 3
        destId := List.replicate 32 2
        assetName := [67, 70, 66]
        amount := 7 } }

/-- Witness for C9 at concrete inputs. -/
theorem c9_self_transfer_duplication_witness :
    (0 < c9Tx.amount ∧ c9Tx.destinationPublicKey = c9Tx.sourcePublicKey ∧
      c9Qx.transferPayload.destId = c9Qx.transaction.sourcePublicKey) ∧
    alistLookup (createTransferTransactionsIdentityMap
        (removeNonTransferTransactionsAndConvert (fun _ => [9]) [c9Tx]))
        c9Tx.sourcePublicKey
      = some [txToProto (fun _ => [9]) c9Tx, txToProto (fun _ => [9]) c9Tx] ∧
    alistLookup (createQxAssetTransfersIdentityMap (fun _ => [9]) [c9Qx] 11)
        c9Qx.transaction.sourcePublicKey
      = some [{ assetIssuer := c9Qx.transferPayload.issuer
                assetName := c9Qx.transferPayload.assetName
                sourceId := c9Qx.transaction.sourcePublicKey
                destId := c9Qx.transferPayload.destId
                amount := c9Qx.transferPayload.amount
                txId := [9]
                tickNumber := 11 },
              { assetIssuer := c9Qx.transferPayload.issuer
                assetName := c9Qx.transferPayload.assetName
                sourceId := c9Qx.transaction.sourcePublicKey
                destId := c9Qx.transferPayload.destId
                amount := c9Qx.transferPayload.amount
                txId := [9]
                tickNumber := 11 }] :=
  ⟨⟨by decide, by decide, by decide⟩,
    c9_self_transfer_duplication (fun _ => [9]) c9Tx c9Qx 11 (by decide)
      (by decide) (by decide)⟩

/-- Claim C10: the per-asset DB record stores `uint64(NumberOfUnits)`; for a
negative unit count `n` the stored amount is `n + 2^64`. -/
theorem c10_negative_units_twos_complement (t : QxAssetTransfer)
    (h1 : -(2 ^ 63) ≤ t.amount) (h2 : t.amount < 0) :
    alistLookup (createQxAssetTransferAssetIdMap [t]) (t.assetIssuer ++ t.assetName)
      = some [{ sourceId := t.sourceId
                destId := t.destId
                amount := (t.amount + 2 ^ 64).toNat
                txId := t.txId }] := by
  simp [createQxAssetTransferAssetIdMap, mapEnsure, mapAppend, alistSet,
    alistLookup, int64ToUint64_of_neg t.amount h1 h2]

/-- Concrete transfer of -1 units for the C10 witness. -/
def c10Transfer : QxAssetTransfer :=
  { assetIssuer := List.replicate 32 3
    assetName := [67, 70, 66]
    sourceId := List.replicate 32 2
    destId := List.replicate 32 4
    amount := -1
    txId := [9]
    tickNumber := 11 }

/-- Witness for C10: -1 is stored as 2^64 - 1. -/
theorem c10_negative_units_witness :
    (-(2 ^ 63) ≤ c10Transfer.amount ∧ c10Transfer.amount < 0) ∧
    alistLookup (createQxAssetTransferAssetIdMap [c10Transfer])
        (c10Transfer.assetIssuer ++ c10Transfer.assetName)
      = some [{ sourceId := c10Transfer.sourceId
                destId := c10Transfer.destId
                amount := (c10Transfer.amount + 2 ^ 64).toNat
                txId := c10Transfer.txId }] :=
  ⟨⟨by norm_num [c10Transfer], by norm_num [c10Transfer]⟩,
    c10_negative_units_twos_complement c10Transfer
      (by norm_num [c10Transfer]) (by norm_num [c10Transfer])⟩

/- ### validator/tx/validator.go : Validate -/

/-- `types.TickData`: the tick body; only the fields the validator reads. -/
structure TickData where
  tick : Nat
  timestamp : Nat
  transactionDigests : List (List Nat)
deriving DecidableEq

/-- The all-zero 32-byte digest (`emptyTxDigest` in validator/tx/validator.go). -/
def emptyTxDigest : List Nat := List.replicate 32 0

/-- `createTxDigestsMap` (validator/tx/validator.go): the set of non-zero
digests listed in the tick body; a Go `map[string]struct{}` is modelled by a
duplicate-free list, whose length is the map's size. -/
def createTxDigestsMap (td : TickData) : List (List Nat) :=
  td.transactionDigests.foldl
    (fun m d => if d = emptyTxDigest then m else if d ∈ m then m else m ++ [d]) []

/-- Errors of `tx.Validate`.  Marshalling and hashing failures cannot occur in
the model because the digest oracle is total. -/
inductive TxErr
  | countMismatch
  | unknownTransaction
  | invalidSignature
deriving DecidableEq

instance {ε α : Type} [DecidableEq ε] [DecidableEq α] : DecidableEq (Except ε α) :=
  fun x y =>
  match x, y with
  | .ok a, .ok b =>
      if h : a = b then .isTrue (congrArg Except.ok h)
      else .isFalse (fun hc => h (Except.ok.inj hc))
  | .error e, .error f =>
      if h : e = f then .isTrue (congrArg Except.error h)
      else .isFalse (fun hc => h (Except.error.inj hc))
  | .ok _, .error _ => .isFalse (fun hc => Except.noConfusion hc)
  | .error _, .ok _ => .isFalse (fun hc => Except.noConfusion hc)

/-- `validateTransactions` (validator/tx/validator.go): per-transaction digest
membership and signature check.  `digestF` is the K12 digest of the fully
marshalled transaction (this is what the Go code compares against the tick
body's digest list); `sigOk` is the external signature verifier. -/
def validateTransactions (digestF : QTransaction → List Nat)
    (sigOk : QTransaction → Bool) :
    List QTransaction → List (List Nat) → Except TxErr (List QTransaction)
  | [], _ => .ok []
  | tx :: rest, dm =>
      if digestF tx ∈ dm then
        if sigOk tx then
          match validateTransactions digestF sigOk rest dm with
          | .error e => .error e
          | .ok l => .ok (tx :: l)
        else .error .invalidSignature
      else .error .unknownTransaction

/-- `Validate` (validator/tx/validator.go): empty digest set short-circuits to
success; then the count check; then the per-transaction loop. -/
def txValidate (digestF : QTransaction → List Nat) (sigOk : QTransaction → Bool)
    (transactions : List QTransaction) (tickData : TickData) :
    Except TxErr (List QTransaction) :=
  let dm := createTxDigestsMap tickData
  if dm.length = 0 then .ok []
  else if transactions.length ≠ dm.length then .error .countMismatch
  else validateTransactions digestF sigOk transactions dm

theorem validateTransactions_ne_countMismatch (digestF : QTransaction → List Nat)
    (sigOk : QTransaction → Bool) (txs : List QTransaction) (dm : List (List Nat)) :
    validateTransactions digestF sigOk txs dm ≠ .error .countMismatch := by
  induction txs with
  | nil => simp [validateTransactions]
  | cons tx rest ih =>
      simp only [validateTransactions]
      split
      · split
        · cases h : validateTransactions digestF sigOk rest dm with
          | error e =>
              rw [h] at ih
              simpa using ih
          | ok l => simp
        · simp
      · simp

/-- Sample transaction used in counterexamples. -/
def c5SampleTx : QTransaction :=
  { sourcePublicKey := List.replicate 32 1
    destinationPublicKey := List.replicate 32 2
    amount := 0
    tick := 7
    inputType := 0
    inputSize := 0
    input := []
    signature := [] }

/-- Claim C5 counterexample: a tick body whose digest list holds only zero
entries (so zero distinct non-zero digests) together with one supplied
transaction: the counts differ (1 vs 0) yet `Validate` returns success with an
empty list instead of a count-mismatch error. -/
theorem c5_count_mismatch_counterexample :
    txValidate (fun _ => List.replicate 32 9) (fun _ => true) [c5SampleTx]
        { tick := 7, timestamp := 0, transactionDigests := [emptyTxDigest] }
      = .ok [] ∧
    [c5SampleTx].length ≠ (createTxDigestsMap
        { tick := 7, timestamp := 0, transactionDigests := [emptyTxDigest] }).length := by
  constructor
  · decide
  · decide

/-- Claim C5 (amended): `Validate` returns the count-mismatch error exactly
when the tick body lists at least one non-zero digest AND the number of
supplied transactions differs from the number of distinct non-zero digests;
when the digest set is empty, `Validate` returns success with no valid
transactions regardless of the supplied count.  (On the error, no transactions
are returned as valid: the error constructor carries no list.) -/
theorem c5_count_mismatch_amended (digestF : QTransaction → List Nat)
    (sigOk : QTransaction → Bool) (transactions : List QTransaction)
    (tickData : TickData) :
    txValidate digestF sigOk transactions tickData = .error .countMismatch ↔
      createTxDigestsMap tickData ≠ [] ∧
        transactions.length ≠ (createTxDigestsMap tickData).length := by
  unfold txValidate
  by_cases h0 : (createTxDigestsMap tickData).length = 0
  · have hnil : createTxDigestsMap tickData = [] := List.length_eq_zero.mp h0
    simp [h0, hnil]
  · have hne : createTxDigestsMap tickData ≠ [] := by
      intro hc
      exact h0 (by simp [hc])
    by_cases hcnt : transactions.length = (createTxDigestsMap tickData).length
    · simp [h0, hcnt, hne,
        validateTransactions_ne_countMismatch digestF sigOk transactions _]
    · simp [h0, hcnt, hne]

/- ### store: SetLastProcessedTick and processed-tick intervals -/

/-- The slice of the store state touched by `SetLastProcessedTick`
(store package).  `ptis` maps an epoch to its `ProcessedTickIntervals` list of
`(InitialProcessedTick, LastProcessedTick)` pairs; `lastPerEpoch` models
`LastProcessedTickPerEpoch`; `lastProcessed` the global `ProcessedTick`
record `(tickNumber, epoch)`. -/
structure BookState where
  ptis : List (Nat × List (Nat × Nat))
  lastPerEpoch : List (Nat × Nat)
  lastProcessed : Option (Nat × Nat)
deriving DecidableEq

/-- `SetLastProcessedTick` (store package): writes the per-epoch and global
last-processed-tick records, then reads the epoch's interval list; if it is
empty a fresh `[tick,tick]` interval is created, otherwise the LAST interval's
`LastProcessedTick` is overwritten with the incoming tick
(`ptie.Intervals[len-1].LastProcessedTick = tick`). -/
def setLastProcessedTick (st : BookState) (tickNumber epoch : Nat) : BookState :=
  let cur := (alistLookup st.ptis epoch).getD []
  let intervals :=
    if cur.isEmpty then [(tickNumber, tickNumber)]
    else cur.set (cur.length - 1) ((cur.getD (cur.length - 1) (0, 0)).1, tickNumber)
  { ptis := alistSet st.ptis epoch intervals
    lastPerEpoch := alistSet st.lastPerEpoch epoch tickNumber
    lastProcessed := some (tickNumber, epoch) }

/-- `AppendProcessedTickInterval` (store package): appends a fresh interval to
the epoch's list.  It exists in the store API but `SetLastProcessedTick` never
invokes it. -/
def appendProcessedTickInterval (st : BookState) (epoch : Nat) (pti : Nat × Nat) :
    BookState :=
  { st with ptis := alistSet st.ptis epoch ((alistLookup st.ptis epoch).getD [] ++ [pti]) }

theorem list_set_last_append {α : Type} (pre : List α) (x y : α) :
    (pre ++ [x]).set pre.length y = pre ++ [y] := by
  induction pre with
  | nil => rfl
  | cons hd tl ih =>
      simp [ih]

theorem list_getD_last_append {α : Type} (pre : List α) (x d : α) :
    (pre ++ [x]).getD pre.length d = x := by
  induction pre with
  | nil => rfl
  | cons hd tl ih =>
      simp [List.getD, ih]

/-- Claim C6 counterexample: epoch 0 has the processed interval `[1,2]`
(so `previousLast = 2`); processing tick 5 (which is NOT `previousLast + 1`)
does not start a new interval — the stored list still has a single interval,
now `[1,5]`, spanning the unprocessed ticks 3 and 4. -/
theorem c6_interval_counterexample :
    alistLookup (setLastProcessedTick
        { ptis := [(0, [(1, 2)])], lastPerEpoch := [(0, 2)],
          lastProcessed := some (2, 0) } 5 0).ptis 0
      = some [(1, 5)] ∧ (5 : Nat) ≠ 2 + 1 := by
  constructor
  · decide
  · decide

/-- Claim C6 (amended): `SetLastProcessedTick` starts a new interval exactly
when the epoch's stored interval list is empty (in particular when the epoch
changes, since intervals are keyed per epoch); otherwise it overwrites the
last interval's upper bound with the incoming tick even when the tick is not
`previousLast + 1`.  After every call the last interval's upper bound and
`LastProcessedTickPerEpoch|epoch` both equal the tick just processed. -/
theorem c6_interval_amended (st : BookState) (tickNumber epoch : Nat) :
    ((alistLookup st.ptis epoch).getD [] = [] →
      alistLookup (setLastProcessedTick st tickNumber epoch).ptis epoch
        = some [(tickNumber, tickNumber)]) ∧
    (∀ pre lo hi, (alistLookup st.ptis epoch).getD [] = pre ++ [(lo, hi)] →
      alistLookup (setLastProcessedTick st tickNumber epoch).ptis epoch
        = some (pre ++ [(lo, tickNumber)])) ∧
    alistLookup (setLastProcessedTick st tickNumber epoch).lastPerEpoch epoch
      = some tickNumber := by
  refine ⟨?_, ?_, ?_⟩
  · intro hempty
    unfold setLastProcessedTick
    simp only [hempty, List.isEmpty_nil, if_true]
    exact alistLookup_alistSet _ _ _
  · intro pre lo hi hcur
    unfold setLastProcessedTick
    simp only [hcur]
    have hne : (pre ++ [(lo, hi)]).isEmpty = false := by
      cases pre <;> simp
    simp only [hne, Bool.false_eq_true, if_false]
    have hlen : (pre ++ [(lo, hi)]).length - 1 = pre.length := by simp
    rw [hlen, list_getD_last_append, list_set_last_append]
    exact alistLookup_alistSet _ _ _
  · unfold setLastProcessedTick
    exact alistLookup_alistSet _ _ _

/-- Concrete state for the C6 witness. -/
def c6State : BookState :=
  { ptis := [(0, [(1, 2)])], lastPerEpoch := [(0, 2)], lastProcessed := some (2, 0) }

/-- Witness for the amended C6 at a concrete state: extending epoch 0's
interval list `[(1,2)]` with tick 5 gives `[(1,5)]` and updates the per-epoch
last tick. -/
theorem c6_interval_amended_witness :
    alistLookup (setLastProcessedTick c6State 5 0).ptis 0 = some ([] ++ [(1, 5)]) ∧
    alistLookup (setLastProcessedTick c6State 5 0).lastPerEpoch 0 = some 5 :=
  ⟨(c6_interval_amended c6State 5 0).2.1 [] 1 2 (by decide),
    (c6_interval_amended c6State 5 0).2.2⟩

/- ### asset_transactions package: ParseAssetTransaction -/

/-- `SMART_CONTRACT_QX` — the Qx exchange contract identity, modelled by the
32-byte public key its identity text encodes (contract index 1). -/
def qxPubKey : List Nat := 1 :: List.replicate 31 0

/-- `SMART_CONTRACT_QUTIL` — the QUtil contract identity, modelled by the
32-byte public key its identity text encodes (contract index 4). -/
def qutilPubKey : List Nat := 4 :: List.replicate 31 0

/-- `LeanTransaction` (asset_transactions package). -/
structure LeanTransaction where
  sourceId : List Nat
  destId : List Nat
  txId : List Nat
  inputType : Nat
  input : List Nat
deriving DecidableEq

/-- `protobuff.SendManyTransfer`. -/
structure SendManyTransfer where
  destId : List Nat
  amount : Int
deriving DecidableEq

/-- `protobuff.SendManyTransaction`. -/
structure SendManyTransaction where
  sourceId : List Nat
  transfers : List SendManyTransfer
  totalAmount : Int
  tickNumber : Nat
  txId : List Nat
deriving DecidableEq

/-- `TransactionWithAssetPayload` (asset_transactions package): the lean
transaction plus at most one decoded payload. -/
structure TransactionWithAssetPayload where
  transaction : LeanTransaction
  qxTransferAssetPayload : Option QxTransferAssetPayload
  sendManyTransaction : Option SendManyTransaction
deriving DecidableEq

/-- `txToLeanTransaction` (asset_transactions package); `digestF` is the
external digest used for the transaction id. -/
def txToLeanTransaction (digestF : QTransaction → List Nat) (tx : QTransaction) :
    LeanTransaction :=
  { sourceId := tx.sourcePublicKey
    destId := tx.destinationPublicKey
    txId := digestF tx
    inputType := tx.inputType
    input := tx.input }

/-- `ParseAssetTransaction` (asset_transactions package): dispatch on
`(destination, inputType)`.  `parseSendMany` models the external
`types.SendManyTransferPayload.UnmarshallBinary` + `GetTransfers` +
`GetTotalAmount` chain (returning the transfer list and total); the redundant
in-branch comparison with `types.QutilAddress` (the same identity text as
`SMART_CONTRACT_QUTIL`) is modelled as always passing.  A `none` result models
the Go `ErrNotValidTransaction` error. -/
def parseAssetTransaction (digestF : QTransaction → List Nat)
    (parseSendMany : List Nat → Option (List SendManyTransfer × Int))
    (tx : QTransaction) : Option TransactionWithAssetPayload :=
  let t := txToLeanTransaction digestF tx
  if tx.inputType = 0 then
    some { transaction := t, qxTransferAssetPayload := none, sendManyTransaction := none }
  else if t.destId = qutilPubKey then
    if tx.inputType = 1 then
      match parseSendMany tx.input with
      | none => none
      | some (transfers, total) =>
          some { transaction := t
                 qxTransferAssetPayload := none
                 sendManyTransaction := some
                   { sourceId := t.sourceId
                     transfers := transfers
                     totalAmount := total
                     tickNumber := tx.tick
                     txId := t.txId } }
    else none
  else if t.destId = qxPubKey then
    if tx.inputType = 2 then
      match QxTransferAssetOwnershipAndPossessionInput.unmarshalBinary tx.input with
      | none => none
      | some inp =>
          some { transaction := t
                 qxTransferAssetPayload := some (getAssetTransfer inp)
                 sendManyTransaction := none }
    else none
  else none

/-- `protobuff.QxAssetTransfersPerTickDB`: the record stored per
`(identity, assetId, tick)` key in the per-asset index. -/
structure QxAssetTransfersPerTickDB where
  tickNumber : Nat
  transfers : List QxAssetTransferDB
deriving DecidableEq

/-- `StoreQxAssetTransfers` (validator/tx/validator.go) acting on the
per-asset index slice of the store.  The keyed write models
`PutQxAssetTransfersPerTick`, whose body is not part of the sources.
Modelled from the spec: the record is stored under
`QxIdentityAssetTransfers|identity|assetId|tick`. -/
def storeQxAssetTransfers (digestF : QTransaction → List Nat)
    (qxIdx : List ((List Nat × List Nat × Nat) × QxAssetTransfersPerTickDB))
    (tickNumber : Nat) (transactions : List QTransaction) :
    List ((List Nat × List Nat × Nat) × QxAssetTransfersPerTickDB) :=
  let ts := removeNonQxAssetTransferTransactionsAndConvert transactions
  let perIdentity := createQxAssetTransfersIdentityMap digestF ts tickNumber
  perIdentity.foldl
    (fun idx p =>
      (createQxAssetTransferAssetIdMap p.2).foldl
        (fun idx2 q => alistSet idx2 (p.1, q.1, tickNumber) ⟨tickNumber, q.2⟩) idx)
    qxIdx

theorem unmarshalBinary_eq_none_iff (data : List Nat) :
    QxTransferAssetOwnershipAndPossessionInput.unmarshalBinary data = none ↔
      data.length < 80 := by
  unfold QxTransferAssetOwnershipAndPossessionInput.unmarshalBinary
  split <;> rename_i h <;> simp <;> omega

/-- A transaction whose destination is NOT the Qx contract but whose
`inputType` is 2 and whose input parses: used to separate the classifier from
the index-writing filter. -/
def c2Tx : QTransaction :=
  { sourcePublicKey := List.replicate 32 2
    destinationPublicKey := List.replicate 32 7
    amount := 0
    tick := 9
    inputType := 2
    inputSize := 80
    input := List.replicate 80 3
    signature := [] }

/-- Claim C2 counterexample: `c2Tx` has `inputType = 2` but its destination is
not the exchange contract.  The classifier indeed rejects it, but the
per-asset index path still accepts it: the conversion list is non-empty and
`StoreQxAssetTransfers` writes per-asset index entries for it, contradicting
the claim that such a transaction contributes nothing to the per-asset
index. -/
theorem c2_classifier_counterexample :
    parseAssetTransaction (fun _ => [9]) (fun _ => none) c2Tx = none ∧
    removeNonQxAssetTransferTransactionsAndConvert [c2Tx] ≠ [] ∧
    storeQxAssetTransfers (fun _ => [9]) [] 9 [c2Tx] ≠ [] := by
  refine ⟨by decide, by decide, by decide⟩

theorem unmarshalBinary_some_length (data : List Nat)
    (inp : QxTransferAssetOwnershipAndPossessionInput)
    (h : QxTransferAssetOwnershipAndPossessionInput.unmarshalBinary data = some inp) :
    80 ≤ data.length := by
  by_contra hc
  rw [(unmarshalBinary_eq_none_iff data).mpr (by omega)] at h
  simp at h

/-- Claim C2 (amended): the classifier (`ParseAssetTransaction`) yields an
asset-transfer payload exactly when the destination is the Qx exchange
contract, the input type is 2 and the 80-byte input unmarshals; but the
per-asset index path (`removeNonQxAssetTransferTransactionsAndConvert`, used
by `StoreQxAssetTransfers`) accepts every transaction whose input type is 2
and whose input unmarshals, regardless of the destination — such transactions
DO contribute entries to the per-identity-per-asset index. -/
theorem c2_classifier_amended (digestF : QTransaction → List Nat)
    (parseSendMany : List Nat → Option (List SendManyTransfer × Int))
    (tx : QTransaction) :
    ((∃ p, parseAssetTransaction digestF parseSendMany tx = some p ∧
        p.qxTransferAssetPayload ≠ none) ↔
      tx.destinationPublicKey = qxPubKey ∧ tx.inputType = 2 ∧
        80 ≤ tx.input.length) ∧
    (removeNonQxAssetTransferTransactionsAndConvert [tx] ≠ [] ↔
      tx.inputType = 2 ∧ 80 ≤ tx.input.length) := by
  have hqq : qutilPubKey ≠ qxPubKey := by decide
  have hqq2 : qxPubKey ≠ qutilPubKey := by decide
  constructor
  · by_cases h0 : tx.inputType = 0
    · simp [parseAssetTransaction, txToLeanTransaction, h0]
    · by_cases hqutil : tx.destinationPublicKey = qutilPubKey
      · have hrhsf : ¬(tx.destinationPublicKey = qxPubKey ∧ tx.inputType = 2 ∧
            80 ≤ tx.input.length) := by
          rintro ⟨hd, _, _⟩
          rw [hqutil] at hd
          exact hqq hd
        by_cases h1 : tx.inputType = 1
        · rcases hpsm : parseSendMany tx.input with _ | pr
          · simp [parseAssetTransaction, txToLeanTransaction, h0, hqutil, h1,
              hpsm, hrhsf]
          · obtain ⟨transfers, total⟩ := pr
            simp [parseAssetTransaction, txToLeanTransaction, h0, hqutil, h1,
              hpsm, hrhsf]
        · simp [parseAssetTransaction, txToLeanTransaction, h0, hqutil, h1, hrhsf,
            hqq, hqq2]
      · by_cases hqx : tx.destinationPublicKey = qxPubKey
        · by_cases h2 : tx.inputType = 2
          · rcases hum : QxTransferAssetOwnershipAndPossessionInput.unmarshalBinary
                tx.input with _ | inp
            · have hlen : tx.input.length < 80 :=
                (unmarshalBinary_eq_none_iff _).mp hum
              simp only [parseAssetTransaction, txToLeanTransaction, h0, hqutil,
                hqx, h2, hum, if_false, if_true, ite_true, ite_false]
              constructor
              · rintro ⟨p, hp, _⟩
                simp [h0, hqutil, hqx, hum] at hp
              · rintro ⟨_, _, hl⟩
                omega
            · have hlen : 80 ≤ tx.input.length :=
                unmarshalBinary_some_length _ _ hum
              simp [parseAssetTransaction, txToLeanTransaction, h0, hqutil,
                hqx, h2, hum, hlen, hqq, hqq2]
          · simp [parseAssetTransaction, txToLeanTransaction, h0, hqutil, hqx, h2,
              hqq, hqq2]
        · simp [parseAssetTransaction, txToLeanTransaction, h0, hqutil, hqx]
  · by_cases h2 : tx.inputType = 2
    · rcases hum : QxTransferAssetOwnershipAndPossessionInput.unmarshalBinary
          tx.input with _ | inp
      · have hlen : tx.input.length < 80 := (unmarshalBinary_eq_none_iff _).mp hum
        simp only [removeNonQxAssetTransferTransactionsAndConvert, List.filterMap,
          h2, if_true, hum]
        constructor
        · intro hc
          simp [h2, hum] at hc
        · rintro ⟨_, hl⟩
          omega
      · have hlen : 80 ≤ tx.input.length := unmarshalBinary_some_length _ _ hum
        simp [removeNonQxAssetTransferTransactionsAndConvert, h2, hum, hlen]
    · simp [removeNonQxAssetTransferTransactionsAndConvert, h2]

/- ### validator package: ValidateTick (part of the store modelled alongside) -/

/-- `types.QuorumTickVote`: only the fields `ValidateTick` reads. -/
structure QuorumVote where
  epoch : Nat
  tick : Nat
  txDigest : List Nat
deriving DecidableEq

/-- `protobuff.TransferTransactionsPerTick`. -/
structure TransferTransactionsPerTick where
  tickNumber : Nat
  identity : List Nat
  transactions : List PTransaction
deriving DecidableEq

/-- The slice of the persistent store the pipeline writes: computor lists per
epoch, quorum votes / tick bodies per tick, transactions by id, the
per-identity transfer index, the per-identity-per-asset index, the empty-tick
counters and the global last-processed-tick record. -/
structure StoreState where
  computors : List (Nat × List Nat)
  quorumData : List (Nat × List QuorumVote)
  tickData : List (Nat × TickData)
  tickTx : List (List Nat × PTransaction)
  transferIdx : List ((List Nat × Nat) × TransferTransactionsPerTick)
  qxIdx : List ((List Nat × List Nat × Nat) × QxAssetTransfersPerTickDB)
  emptyTicks : List (Nat × Nat)
  lastProcessed : Option (Nat × Nat)
deriving DecidableEq

/-- Modelled from the spec: `computors.Store` (validator/computors package,
not among the sources) persists the computor list under `Computors|epoch` on
first sighting in an epoch (spec section 4.3); re-storing an already-present
epoch leaves the stored value unchanged. -/
def computorsStore (st : StoreState) (epoch : Nat) (comps : List Nat) : StoreState :=
  if (alistLookup st.computors epoch).isSome then st
  else { st with computors := alistSet st.computors epoch comps }

/-- Modelled from the spec: `quorum.Store` (validator/quorum package, not
among the sources) persists the quorum votes under `QuorumData|tick`. -/
def quorumStore (st : StoreState) (votes : List QuorumVote) : StoreState :=
  match votes with
  | [] => st
  | v :: _ => { st with quorumData := alistSet st.quorumData v.tick votes }

/-- Modelled from the spec: `tick.Store` (validator/tick package, not among
the sources) persists the tick body under `TickData|tick` via `SetTickData`. -/
def tickStoreData (st : StoreState) (td : TickData) : StoreState :=
  { st with tickData := alistSet st.tickData td.tick td }

/-- `SetTransactions` (store package): one keyed write per transaction. -/
def setTransactions (st : StoreState) (ptxs : List PTransaction) : StoreState :=
  { st with tickTx := ptxs.foldl (fun m tx => alistSet m tx.txId tx) st.tickTx }

/-- `storeTransferTransactions` (validator/tx/validator.go) chained with
`PutTransferTransactionsPerTick` (store package): one record per
`(identity, tick)`. -/
def storeTransferTransactions (digestF : QTransaction → List Nat) (st : StoreState)
    (tickNumber : Nat) (txs : List QTransaction) : StoreState :=
  let m := createTransferTransactionsIdentityMap
    (removeNonTransferTransactionsAndConvert digestF txs)
  { st with transferIdx :=
      (m.foldl (fun idx p => alistSet idx (p.1, tickNumber)
        { tickNumber := tickNumber, identity := p.1, transactions := p.2 })
        st.transferIdx) }

/-- `Store` (validator/tx/validator.go): raw transactions, per-identity
transfer records, per-asset transfer records. -/
def txStoreAll (digestF : QTransaction → List Nat) (st : StoreState)
    (tickNumber : Nat) (txs : List QTransaction) : StoreState :=
  let st1 := setTransactions st (txs.map (txToProto digestF))
  let st2 := storeTransferTransactions digestF st1 tickNumber txs
  { st2 with qxIdx := storeQxAssetTransfers digestF st2.qxIdx tickNumber txs }

/-- `SetEmptyTicksForEpoch` (store package): writes the empty-tick counter for
an epoch.  `ValidateTick` never invokes it. -/
def setEmptyTicksForEpoch (st : StoreState) (epoch count : Nat) : StoreState :=
  { st with emptyTicks := alistSet st.emptyTicks epoch count }

/-- Errors surfaced by `ValidateTick` after a successful fetch stage. -/
inductive PipelineErr
  | noQuorumVotes
  | invalidComputors
  | invalidQuorum
  | invalidTickData
  | invalidTransactions (e : TxErr)
deriving DecidableEq

/-- The external validators and crypto helpers `ValidateTick` dispatches to:
`computors.Validate`, `quorum.Validate`, `tick.Validate`, the K12 digest of a
marshalled transaction, and the signature verifier. -/
structure PipelineOracles where
  computorsValid : List Nat → Bool
  quorumValid : List QuorumVote → List Nat → Bool
  tickValid : TickData → QuorumVote → List Nat → Bool
  txDigestFull : QTransaction → List Nat
  txSigValid : QTransaction → Bool

/-- The data the node returns for one tick; fetches are modelled as
succeeding (a failed fetch aborts before any write and is out of scope of the
claims). -/
structure NodeEnv where
  quorumVotes : List QuorumVote
  nodeComputors : List Nat
  nodeTickData : TickData
  nodeTransactions : List QTransaction

/-- `ValidateTick` (validator package): fetch quorum votes; resolve the
computor list from the store, falling back to the node; validate and store
computors; validate quorum; return success immediately when the agreed
`txDigest` is all zeros; otherwise validate the tick body and the
transactions, then store quorum votes, tick body and transactions. -/
def validateTick (o : PipelineOracles) (env : NodeEnv) (tickNumber : Nat)
    (st : StoreState) : StoreState × Except PipelineErr Unit :=
  match env.quorumVotes with
  | [] => (st, .error .noQuorumVotes)
  | v :: rest =>
      let comps := (alistLookup st.computors v.epoch).getD env.nodeComputors
      if ¬ o.computorsValid comps then (st, .error .invalidComputors)
      else
        let st1 := computorsStore st v.epoch comps
        if ¬ o.quorumValid (v :: rest) comps then (st1, .error .invalidQuorum)
        else if v.txDigest = emptyTxDigest then (st1, .ok ())
        else
          let td := env.nodeTickData
          if ¬ o.tickValid td v comps then (st1, .error .invalidTickData)
          else
            match txValidate o.txDigestFull o.txSigValid env.nodeTransactions td with
            | .error e => (st1, .error (.invalidTransactions e))
            | .ok validTxs =>
                let st2 := quorumStore st1 (v :: rest)
                let st3 := tickStoreData st2 td
                (txStoreAll o.txDigestFull st3 tickNumber validTxs, .ok ())

theorem computorsStore_fields (st : StoreState) (epoch : Nat) (comps : List Nat) :
    (computorsStore st epoch comps).quorumData = st.quorumData ∧
    (computorsStore st epoch comps).tickData = st.tickData ∧
    (computorsStore st epoch comps).tickTx = st.tickTx ∧
    (computorsStore st epoch comps).transferIdx = st.transferIdx ∧
    (computorsStore st epoch comps).qxIdx = st.qxIdx ∧
    (computorsStore st epoch comps).emptyTicks = st.emptyTicks ∧
    (computorsStore st epoch comps).lastProcessed = st.lastProcessed := by
  unfold computorsStore
  split <;> simp

/-- Claim C3 (amended): when the computor list validates but quorum validation
fails, `ValidateTick` returns the quorum error and writes nothing for the
tick — every store component except the per-epoch computor list is unchanged;
the computor list itself may have been persisted before the quorum check (a
first sighting of the epoch), so the whole store state is not necessarily
identical. -/
theorem c3_quorum_failure_amended (o : PipelineOracles) (env : NodeEnv)
    (tickNumber : Nat) (st : StoreState) (v : QuorumVote) (rest : List QuorumVote)
    (hv : env.quorumVotes = v :: rest)
    (hcomp : o.computorsValid
      ((alistLookup st.computors v.epoch).getD env.nodeComputors) = true)
    (hq : o.quorumValid env.quorumVotes
      ((alistLookup st.computors v.epoch).getD env.nodeComputors) = false) :
    (validateTick o env tickNumber st).2 = .error .invalidQuorum ∧
    (validateTick o env tickNumber st).1.quorumData = st.quorumData ∧
    (validateTick o env tickNumber st).1.tickData = st.tickData ∧
    (validateTick o env tickNumber st).1.tickTx = st.tickTx ∧
    (validateTick o env tickNumber st).1.transferIdx = st.transferIdx ∧
    (validateTick o env tickNumber st).1.qxIdx = st.qxIdx ∧
    (validateTick o env tickNumber st).1.emptyTicks = st.emptyTicks ∧
    (validateTick o env tickNumber st).1.lastProcessed = st.lastProcessed := by
  have hqv : o.quorumValid (v :: rest)
      ((alistLookup st.computors v.epoch).getD env.nodeComputors) = false := by
    rw [← hv]; exact hq
  have hfields := computorsStore_fields st v.epoch
    ((alistLookup st.computors v.epoch).getD env.nodeComputors)
  refine ⟨?_, ?_, ?_, ?_, ?_, ?_, ?_, ?_⟩ <;>
    simp only [validateTick, hv, hcomp, hqv, Bool.not_true, not_false_eq_true,
      Bool.false_eq_true, if_false, if_true, not_true_eq_false, ite_false,
      ite_true] <;>
    first
    | rfl
    | exact hfields.1
    | exact hfields.2.1
    | exact hfields.2.2.1
    | exact hfields.2.2.2.1
    | exact hfields.2.2.2.2.1
    | exact hfields.2.2.2.2.2.1
    | exact hfields.2.2.2.2.2.2

/-- Pipeline oracles for the C3 counterexample: the computor list validates,
quorum validation fails. -/
def c3Oracles : PipelineOracles :=
  { computorsValid := fun _ => true
    quorumValid := fun _ _ => false
    tickValid := fun _ _ _ => true
    txDigestFull := fun _ => [9]
    txSigValid := fun _ => true }

/-- Node data for the C3 counterexample: one quorum vote for tick 10 of
epoch 3; the store has never seen epoch 3, so the computor list comes from
the node. -/
def c3Env : NodeEnv :=
  { quorumVotes := [{ epoch := 3, tick := 10, txDigest := List.replicate 32 1 }]
    nodeComputors := [8]
    nodeTickData := { tick := 10, timestamp := 0, transactionDigests := [] }
    nodeTransactions := [] }

/-- The empty store. -/
def emptyStore : StoreState :=
  { computors := [], quorumData := [], tickData := [], tickTx := [],
    transferIdx := [], qxIdx := [], emptyTicks := [], lastProcessed := none }

/-- Claim C3 counterexample: on a first sighting of an epoch, the computor
list is persisted BEFORE quorum validation runs, so when quorum validation
fails the store is not identical to its pre-call state: `Computors|3` is now
present.  (`LastProcessedTick` is indeed unchanged.) -/
theorem c3_quorum_failure_counterexample :
    (validateTick c3Oracles c3Env 10 emptyStore).2 = .error .invalidQuorum ∧
    alistLookup (validateTick c3Oracles c3Env 10 emptyStore).1.computors 3
      = some [8] ∧
    alistLookup emptyStore.computors 3 = none ∧
    (validateTick c3Oracles c3Env 10 emptyStore).1 ≠ emptyStore := by
  refine ⟨by decide, by decide, by decide, by decide⟩

/-- Witness for the amended C3 at the concrete counterexample inputs. -/
theorem c3_quorum_failure_amended_witness :
    (validateTick c3Oracles c3Env 10 emptyStore).2 = .error .invalidQuorum ∧
    (validateTick c3Oracles c3Env 10 emptyStore).1.quorumData = emptyStore.quorumData ∧
    (validateTick c3Oracles c3Env 10 emptyStore).1.tickData = emptyStore.tickData ∧
    (validateTick c3Oracles c3Env 10 emptyStore).1.tickTx = emptyStore.tickTx ∧
    (validateTick c3Oracles c3Env 10 emptyStore).1.transferIdx = emptyStore.transferIdx ∧
    (validateTick c3Oracles c3Env 10 emptyStore).1.qxIdx = emptyStore.qxIdx ∧
    (validateTick c3Oracles c3Env 10 emptyStore).1.emptyTicks = emptyStore.emptyTicks ∧
    (validateTick c3Oracles c3Env 10 emptyStore).1.lastProcessed = emptyStore.lastProcessed :=
  c3_quorum_failure_amended c3Oracles c3Env 10 emptyStore
    { epoch := 3, tick := 10, txDigest := List.replicate 32 1 } []
    (by decide) (by decide) (by decide)

/-- Claim C4 (amended): when quorum validation succeeds and the agreed
`txDigest` is all zeros, `ValidateTick` returns success immediately — without
attempting tick-body or transaction validation and without writing anything
for the tick: no `TickData`, no `TickTx`, no quorum-data write, and neither
`EmptyTicksPerEpoch` nor `LastProcessedTick` is touched by `ValidateTick`
(only the epoch's computor list may have been persisted). -/
theorem c4_empty_tick_amended (o : PipelineOracles) (env : NodeEnv)
    (tickNumber : Nat) (st : StoreState) (v : QuorumVote) (rest : List QuorumVote)
    (hv : env.quorumVotes = v :: rest)
    (hcomp : o.computorsValid
      ((alistLookup st.computors v.epoch).getD env.nodeComputors) = true)
    (hq : o.quorumValid env.quorumVotes
      ((alistLookup st.computors v.epoch).getD env.nodeComputors) = true)
    (hz : v.txDigest = emptyTxDigest) :
    (validateTick o env tickNumber st).2 = .ok () ∧
    (validateTick o env tickNumber st).1.quorumData = st.quorumData ∧
    (validateTick o env tickNumber st).1.tickData = st.tickData ∧
    (validateTick o env tickNumber st).1.tickTx = st.tickTx ∧
    (validateTick o env tickNumber st).1.transferIdx = st.transferIdx ∧
    (validateTick o env tickNumber st).1.qxIdx = st.qxIdx ∧
    (validateTick o env tickNumber st).1.emptyTicks = st.emptyTicks ∧
    (validateTick o env tickNumber st).1.lastProcessed = st.lastProcessed := by
  have hqv : o.quorumValid (v :: rest)
      ((alistLookup st.computors v.epoch).getD env.nodeComputors) = true := by
    rw [← hv]; exact hq
  have hfields := computorsStore_fields st v.epoch
    ((alistLookup st.computors v.epoch).getD env.nodeComputors)
  refine ⟨?_, ?_, ?_, ?_, ?_, ?_, ?_, ?_⟩ <;>
    simp only [validateTick, hv, hcomp, hqv, hz, Bool.not_true, not_false_eq_true,
      Bool.false_eq_true, if_false, if_true, not_true_eq_false, ite_false,
      ite_true] <;>
    first
    | rfl
    | exact hfields.1
    | exact hfields.2.1
    | exact hfields.2.2.1
    | exact hfields.2.2.2.1
    | exact hfields.2.2.2.2.1
    | exact hfields.2.2.2.2.2.1
    | exact hfields.2.2.2.2.2.2

/-- Pipeline oracles for the C4 counterexample: everything validates. -/
def c4Oracles : PipelineOracles :=
  { computorsValid := fun _ => true
    quorumValid := fun _ _ => true
    tickValid := fun _ _ _ => true
    txDigestFull := fun _ => [9]
    txSigValid := fun _ => true }

/-- Node data for the C4 counterexample: the quorum vote for tick 7 of
epoch 3 agrees on the all-zero `txDigest`. -/
def c4Env : NodeEnv :=
  { quorumVotes := [{ epoch := 3, tick := 7, txDigest := emptyTxDigest }]
    nodeComputors := [8]
    nodeTickData := { tick := 7, timestamp := 0, transactionDigests := [] }
    nodeTransactions := [] }

/-- Claim C4 counterexample: for an empty tick (all-zero agreed `txDigest`)
`ValidateTick` returns success but writes no `TickData|7` record, does not
touch `EmptyTicksPerEpoch|3` and does not advance `LastProcessedTick` — the
claim's expected writes do not happen in the pipeline. -/
theorem c4_empty_tick_counterexample :
    (validateTick c4Oracles c4Env 7 emptyStore).2 = .ok () ∧
    alistLookup (validateTick c4Oracles c4Env 7 emptyStore).1.tickData 7 = none ∧
    alistLookup (validateTick c4Oracles c4Env 7 emptyStore).1.emptyTicks 3 = none ∧
    (validateTick c4Oracles c4Env 7 emptyStore).1.lastProcessed = none ∧
    (validateTick c4Oracles c4Env 7 emptyStore).1.tickTx = [] := by
  refine ⟨by decide, by decide, by decide, by decide, by decide⟩

/-- Witness for the amended C4 at the concrete counterexample inputs. -/
theorem c4_empty_tick_amended_witness :
    (validateTick c4Oracles c4Env 7 emptyStore).2 = .ok () ∧
    (validateTick c4Oracles c4Env 7 emptyStore).1.quorumData = emptyStore.quorumData ∧
    (validateTick c4Oracles c4Env 7 emptyStore).1.tickData = emptyStore.tickData ∧
    (validateTick c4Oracles c4Env 7 emptyStore).1.tickTx = emptyStore.tickTx ∧
    (validateTick c4Oracles c4Env 7 emptyStore).1.transferIdx = emptyStore.transferIdx ∧
    (validateTick c4Oracles c4Env 7 emptyStore).1.qxIdx = emptyStore.qxIdx ∧
    (validateTick c4Oracles c4Env 7 emptyStore).1.emptyTicks = emptyStore.emptyTicks ∧
    (validateTick c4Oracles c4Env 7 emptyStore).1.lastProcessed = emptyStore.lastProcessed :=
  c4_empty_tick_amended c4Oracles c4Env 7 emptyStore
    { epoch := 3, tick := 7, txDigest := emptyTxDigest } []
    (by decide) (by decide) (by decide) (by decide)

/- ### store: GetIdetityAssetTransactionsFromEnd (reverse pagination) -/

/-- One element of the reader's result (`IdetityAssetTransactions` in the
store package): the transaction (represented by its id), its `moneyFlew`
status and the timestamp of its tick. -/
structure AssetTxItem where
  txId : List Nat
  moneyFlew : Bool
  timestamp : Nat
deriving DecidableEq

/-- The return tuple of the reader: the page, `nextEndTick`,
`nextTxnIndexStart` and `lastProcessedTick`. -/
structure AssetPage where
  transactions : List AssetTxItem
  nextEndTick : Nat
  nextTxnIndexStart : Nat
  lastProcessedTick : Nat
deriving DecidableEq

/-- The store slice the reader consults for one fixed `(identity, assetId)`
pair: `entries` is the list of `(tick, transaction ids)` records under
`QxIdentityAssetTransfers|identity|assetId|*` in ascending key (= tick)
order, with the ids in insertion order; `moneyFlew` models `TxStatus` lookups
and `timestampOf` models the `TickData` timestamp lookups (both assumed
present, as the indexer writes them for every indexed transaction). -/
structure AssetStore where
  entries : List (Nat × List (List Nat))
  moneyFlew : List Nat → Bool
  timestampOf : Nat → Nat
  lastProcessedTick : Nat

/-- The inner loop of the reader over one tick's (already reversed) id list,
starting at absolute index `i`; `total` is the length of the full reversed
list.  Returns the grown accumulator and `some nextIdx` when the limit was
reached (`nextIdx` is `i+1` if the limit hit before the last index, else 0),
or `none` when the tick was fully processed. -/
def scanAssetTxs (includeFailed : Bool) (flew : List Nat → Bool) (ts : Nat)
    (maxTx total : Nat) :
    List (List Nat) → Nat → List AssetTxItem → List AssetTxItem × Option Nat
  | [], _, acc => (acc, none)
  | txId :: rest, i, acc =>
      if ¬ includeFailed ∧ ¬ flew txId then
        scanAssetTxs includeFailed flew ts maxTx total rest (i + 1) acc
      else
        let acc2 := acc ++ [{ txId := txId, moneyFlew := flew txId, timestamp := ts }]
        if maxTx ≤ acc2.length then
          (acc2, some (if i < total - 1 then i + 1 else 0))
        else
          scanAssetTxs includeFailed flew ts maxTx total rest (i + 1) acc2

/-- The outer loop of the reader over the per-tick records in DESCENDING tick
order, carrying the `firstTick` flag, the caller's `txnIndexStart`, the
accumulator and the running `(nextEndTick, nextTxnIndexStart)` cursor. -/
def pageAssetTicks (includeFailed : Bool) (flew : List Nat → Bool)
    (tsOf : Nat → Nat) (maxTx : Nat) :
    List (Nat × List (List Nat)) → Bool → Nat → List AssetTxItem → Nat → Nat →
      List AssetTxItem × Nat × Nat
  | [], _, _, acc, nextEnd, nextIdx => (acc, nextEnd, nextIdx)
  | (tick, ids) :: rest, firstTick, startIdx, acc, _, nextIdx =>
      if firstTick ∧ ids.length ≤ startIdx then
        pageAssetTicks includeFailed flew tsOf maxTx rest false startIdx acc
          tick nextIdx
      else
        let rids := ids.reverse
        let s := if firstTick then startIdx else 0
        match scanAssetTxs includeFailed flew (tsOf tick) maxTx rids.length
            (rids.drop s) s acc with
        | (acc2, some idx) => (acc2, tick, idx)
        | (acc2, none) =>
            if 0 < tick then
              pageAssetTicks includeFailed flew tsOf maxTx rest false startIdx
                acc2 (tick - 1) 0
            else
              pageAssetTicks includeFailed flew tsOf maxTx rest false startIdx
                acc2 tick nextIdx

/-- `GetIdetityAssetTransactionsFromEnd` (store package): `endTick = 0`
defaults to the last processed tick and `maxTransactions = 0` to 1000; the
iterator ranges over keys with tick ≤ endTick and is walked backwards from
the last key. -/
def getIdetityAssetTransactionsFromEnd (st : AssetStore) (includeFailed : Bool)
    (endTick txnIndexStart maxTransactions : Nat) : AssetPage :=
  let endTick2 := if endTick = 0 then st.lastProcessedTick else endTick
  let maxTx := if maxTransactions = 0 then 1000 else maxTransactions
  let desc := (st.entries.filter (fun e => e.1 ≤ endTick2)).reverse
  let r := pageAssetTicks includeFailed st.moneyFlew st.timestampOf maxTx desc
    true txnIndexStart [] 0 0
  { transactions := r.1
    nextEndTick := r.2.1
    nextTxnIndexStart := r.2.2
    lastProcessedTick := st.lastProcessedTick }

/-- Store for the C1 counterexample: one indexed tick (tick 1) holding one
successful transaction. -/
def c1Store : AssetStore :=
  { entries := [(1, [[10]])]
    moneyFlew := fun _ => true
    timestampOf := fun _ => 0
    lastProcessedTick := 1 }

/-- Claim C1 failing run: with `limit = 1` the page fills exactly at the last
entry of tick 1, and the returned cursor is `(nextEndTick = 1, nextIndex = 0)`
— the very cursor that was passed in.  Feeding the cursor back therefore
returns the identical page: the concatenation of successive pages repeats the
same transaction forever and the pagination never terminates, violating the
exactly-once law.  (The intended cursor after exhausting tick 1 is
`(nextEndTick = 0, nextIndex = 0)`.) -/
theorem c1_pagination_cursor_stuck :
    getIdetityAssetTransactionsFromEnd c1Store true 1 0 1 =
      { transactions := [{ txId := [10], moneyFlew := true, timestamp := 0 }]
        nextEndTick := 1
        nextTxnIndexStart := 0
        lastProcessedTick := 1 } ∧
    getIdetityAssetTransactionsFromEnd c1Store true
        (getIdetityAssetTransactionsFromEnd c1Store true 1 0 1).nextEndTick
        (getIdetityAssetTransactionsFromEnd c1Store true 1 0 1).nextTxnIndexStart 1 =
      { transactions := [{ txId := [10], moneyFlew := true, timestamp := 0 }]
        nextEndTick := 1
        nextTxnIndexStart := 0
        lastProcessedTick := 1 } := by
  refine ⟨by decide, by decide⟩

/-- Store reproducing the spec's scenario S6: five asset transactions
`a`..`e` (ids `[1]`..`[5]`) in a single tick `T = 20`. -/
def s6Store : AssetStore :=
  { entries := [(20, [[1], [2], [3], [4], [5]])]
    moneyFlew := fun _ => true
    timestampOf := fun _ => 0
    lastProcessedTick := 20 }

/-- Sanity check (spec scenario S6, not itself a claim): with `limit = 2`, the
three successive pages are sizes 2, 2, 1 with cursors `(T,2)`, `(T,4)` and
`(T-1,0)` — the model reproduces the spec's concrete pagination trace. -/
theorem s6_pagination_trace :
    (getIdetityAssetTransactionsFromEnd s6Store true 0 0 2).transactions.length = 2 ∧
    (getIdetityAssetTransactionsFromEnd s6Store true 0 0 2).nextEndTick = 20 ∧
    (getIdetityAssetTransactionsFromEnd s6Store true 0 0 2).nextTxnIndexStart = 2 ∧
    (getIdetityAssetTransactionsFromEnd s6Store true 20 2 2).transactions.length = 2 ∧
    (getIdetityAssetTransactionsFromEnd s6Store true 20 2 2).nextEndTick = 20 ∧
    (getIdetityAssetTransactionsFromEnd s6Store true 20 2 2).nextTxnIndexStart = 4 ∧
    (getIdetityAssetTransactionsFromEnd s6Store true 20 4 2).transactions.length = 1 ∧
    (getIdetityAssetTransactionsFromEnd s6Store true 20 4 2).nextEndTick = 19 ∧
    (getIdetityAssetTransactionsFromEnd s6Store true 20 4 2).nextTxnIndexStart = 0 := by
  refine ⟨by decide, by decide, by decide, by decide, by decide, by decide,
    by decide, by decide, by decide⟩

end GoArchiver
